import Mathlib

set_option maxHeartbeats 1000000
set_option maxRecDepth 8192

/- Shallow embedding of src/library/compliance_policy.py, the Satellite
compliance-policy reconciliation module.  Python dictionaries that may lack a
key are embedded with Option fields (none = key absent), fallible operations
return Except, and the remote server state is threaded explicitly.  The remote
server itself is an external collaborator; its behaviour (listing answers, the
stored representation of a created or updated policy) follows spec sections 3
and 6. -/

/-- An item of a listable API collection (organizations, locations,
hostgroups).  It carries the server id and both display keys the module ever
reads: the field item[key] for key = "name" or key = "title". -/
structure ApiItem where
  id : Nat
  name : String
  title : String
deriving DecidableEq

/-- One entry of the scap_contents listing, as read by
_resolve_scap_content. -/
structure ScapContent where
  id : Nat
  title : String
deriving DecidableEq

/-- One entry of the scap_content_profiles listing, as read by
_resolve_scap_profile.  The two read paths are dictionary .get chains, so
both are Options. -/
structure ScapProfile where
  id : Nat
  profile_id : Option String
  scap_content_title : Option String
deriving DecidableEq

/-- A nested association object inside a remote policy; the module only ever
reads its id field. -/
structure AssocObj where
  id : Nat
deriving DecidableEq

/-- The server-side representation of a policy, as read by _needs_update and
run.  Fields read through .get are Options (none = key absent from the
JSON). -/
structure RemotePolicy where
  id : Nat
  name : String
  description : Option String
  scap_content_id : Option Nat
  scap_content_profile_id : Option Nat
  period : Option String
  deploy_by : Option String
  weekday : Option String
  day_of_month : Option Int
  cron_line : Option String
  organizations : List AssocObj
  locations : List AssocObj
  hostgroups : List AssocObj
deriving DecidableEq

/-- The policy dictionary built by _build_policy_payload.  Keys the builder
always writes are plain fields; the three schedule keys, which may be left
out of the dictionary, are Options (none = key absent). -/
structure Policy where
  name : String
  description : String
  scap_content_id : Nat
  scap_content_profile_id : Nat
  period : Option String
  deploy_by : Option String
  organization_ids : List Nat
  location_ids : List Nat
  hostgroup_ids : List Nat
  weekday : Option String
  day_of_month : Option Int
  cron_line : Option String
deriving DecidableEq

/-- The validated parameter bundle handed to the module by AnsibleModule
(argument_spec of the constructor).  description defaults to the empty
string, hostgroups to [], state to "present"; every other optional parameter
is an Option. -/
structure Params where
  name : String
  description : String
  scap_content : Option String
  scap_content_profile : Option String
  deploy_by : Option String
  period : Option String
  weekday : Option String
  day_of_month : Option Int
  cron_line : Option String
  organizations : Option (List String)
  locations : Option (List String)
  hostgroups : List String
  state : String
deriving DecidableEq

/-- Modelled from the spec: the remote server durable store (spec sections 3
and 6) — the collections the module lists plus the policies themselves.  The
server is an external collaborator of the module under src/. -/
structure ServerState where
  scap_contents : List ScapContent
  scap_content_profiles : List ScapProfile
  organizations : List ApiItem
  locations : List ApiItem
  hostgroups : List ApiItem
  policies : List RemotePolicy
deriving DecidableEq

/-- A mutating HTTP request issued by the module, in issue order. -/
inductive Mutation where
  | post (endpoint : String) (body : Policy)
  | put (endpoint : String) (body : Policy)
  | delete (endpoint : String)
deriving DecidableEq

/-- One element of the reported entity.compliance_policies list: either the
built payload dictionary (check mode) or a server-side policy representation
(the pre-existing object on a no-op, the response body on create or
update). -/
inductive Snapshot where
  | payload (pol : Policy)
  | remote (pol : RemotePolicy)
deriving DecidableEq

/-- What exit_json or fail_json reports: changed flag plus the
entity.compliance_policies list, or the fatal message. -/
structure RunReport where
  changed : Bool
  compliance_policies : List Snapshot
deriving DecidableEq

/-- The observable outcome of one invocation of run: the report, the final
server state, and the list of mutating requests issued (in order), recorded
whether or not the invocation failed. -/
structure RunResult where
  report : Except String RunReport
  server : ServerState
  mutations : List Mutation

/-- Python truthiness of an optional string parameter (p.get(k)): absent and
empty string are falsy. -/
def truthyS : Option String → Bool
  | none => false
  | some s => !(s == "")

/-- Python truthiness of an optional integer parameter: absent and zero are
falsy. -/
def truthyI : Option Int → Bool
  | none => false
  | some n => !(n == 0)

/-- Rendering of an optional string by format, as Python str(): str(None)
is the text None. -/
def optStr : Option String → String
  | none => "None"
  | some s => s

/-- Whether an optional choice parameter respects its argument_spec choices
list (an absent parameter always does). -/
def optChoiceOk (v : Option String) (choices : List String) : Bool :=
  match v with
  | none => true
  | some s => choices.contains s

/-- The validation AnsibleModule performs on the parameter bundle: the
choices lists of state, deploy_by, period and weekday, plus the required_if
rules of the constructor (state=present requires the six listed parameters;
each period value requires its schedule parameter). -/
def validParams (p : Params) : Bool :=
  ((p.state == "present") || (p.state == "absent"))
  && optChoiceOk p.deploy_by ["ansible", "puppet", "manual"]
  && optChoiceOk p.period ["weekly", "monthly", "custom"]
  && optChoiceOk p.weekday
      ["monday", "tuesday", "wednesday", "thursday", "friday", "saturday", "sunday"]
  && (!(p.state == "present")
      || (p.scap_content.isSome && p.scap_content_profile.isSome
          && p.deploy_by.isSome && p.period.isSome
          && p.organizations.isSome && p.locations.isSome))
  && (!(p.period == some "weekly") || p.weekday.isSome)
  && (!(p.period == some "monthly") || p.day_of_month.isSome)
  && (!(p.period == some "custom") || p.cron_line.isSome)

/-- The per_page value of the single listing request _get_all issues. -/
def perPage : Nat := 1000

/-- _get_all composed with the server listing behaviour of spec section 6:
the module issues exactly one GET endpoint?per_page=1000 and the server
answers it with the first page — the first 1000 elements of the collection.
No further page is ever requested, so this is everything the module sees. -/
def get_all (collection : List α) : List α :=
  collection.take perPage

/-- item[key] for the two key fields the module ever passes to
_resolve_ids. -/
def getKey (key : String) (it : ApiItem) : String :=
  if key == "title" then it.title else it.name

/-- The dictionary comprehension of _resolve_ids, item[key] mapped to
item[id]: a later item overwrites an earlier one carrying the same key, so a
lookup returns the id of the LAST item with that key, and succeeds exactly
when some item has it. -/
def lookupKey (results : List ApiItem) (key : String) (nm : String) : Option Nat :=
  (results.reverse.find? (fun it => getKey key it == nm)).map (fun it => it.id)

/-- The lookup loop of _resolve_ids over the requested names: the first name
missing from the dictionary aborts with the fail_json message; otherwise the
ids come back in request order.  (The Python builds the dictionary once
before the loop; looking it up per name is observationally identical.) -/
def resolveNames (results : List ApiItem) (endpoint : String) (key : String) :
    List String → Except String (List Nat)
  | [] => .ok []
  | n :: rest =>
    match lookupKey results key n with
    | none =>
        .error ("Could not find " ++ key ++ " \u0027" ++ n ++ "\u0027 at " ++ endpoint)
    | some i => (resolveNames results endpoint key rest).map (fun ids => i :: ids)

/-- _resolve_ids: one full-collection fetch, then the per-name lookup. -/
def resolve_ids (collection : List ApiItem) (endpoint : String)
    (names : List String) (key : String) : Except String (List Nat) :=
  resolveNames (get_all collection) endpoint key names

/-- _find_policy: linear scan of the fetched policies listing for the first
policy with the requested name. -/
def find_policy (server : ServerState) (nm : String) : Option RemotePolicy :=
  (get_all server.policies).find? (fun pol => pol.name == nm)

/-- _resolve_scap_content: scan of the scap_contents listing by title.  A
missing title is fatal.  (Python compares content[title] == title where the
parameter may be None; an Option on the right models that.) -/
def resolve_scap_content (server : ServerState) (title : Option String) :
    Except String Nat :=
  match (get_all server.scap_contents).find? (fun c => some c.title == title) with
  | some c => .ok c.id
  | none => .error ("SCAP content \u0027" ++ optStr title ++ "\u0027 not found")

/-- _resolve_scap_profile: scan of the scap_content_profiles listing, matched
on both the owning content title and the profile_id string. -/
def resolve_scap_profile (server : ServerState)
    (scap_content_title : Option String) (profile_id : Option String) :
    Except String Nat :=
  match (get_all server.scap_content_profiles).find?
      (fun pr => pr.scap_content_title == scap_content_title
        && pr.profile_id == profile_id) with
  | some pr => .ok pr.id
  | none =>
      .error ("SCAP profile \u0027" ++ optStr profile_id
        ++ "\u0027 not found in content \u0027" ++ optStr scap_content_title ++ "\u0027")

/-- _build_policy_payload.  The five resolutions run in source order and each
failure short-circuits.  The organizations and locations parameters are read
with getD []: the Python indexes p[organizations] directly, which is only
reachable as a list because required_if has already enforced presence for
state=present — the theorems below carry that hypothesis.  The three
schedule keys follow the if/elif chain of lines 306-311; because period holds
a single value the three guards are mutually exclusive, so the chain equals
the three independent conditionals written here. -/
def build_policy_payload (p : Params) (server : ServerState) :
    Except String Policy :=
  match resolve_scap_content server p.scap_content with
  | .error m => .error m
  | .ok scap_content_id =>
  match resolve_scap_profile server p.scap_content p.scap_content_profile with
  | .error m => .error m
  | .ok scap_content_profile_id =>
  match resolve_ids server.organizations "/api/v2/organizations"
      (p.organizations.getD []) "name" with
  | .error m => .error m
  | .ok organization_ids =>
  match resolve_ids server.locations "/api/v2/locations"
      (p.locations.getD []) "name" with
  | .error m => .error m
  | .ok location_ids =>
  match (if p.hostgroups.isEmpty then Except.ok []
      else resolve_ids server.hostgroups "/api/v2/hostgroups" p.hostgroups "title") with
  | .error m => .error m
  | .ok hostgroup_ids =>
    .ok { name := p.name
          description := p.description
          scap_content_id := scap_content_id
          scap_content_profile_id := scap_content_profile_id
          period := p.period
          deploy_by := p.deploy_by
          organization_ids := organization_ids
          location_ids := location_ids
          hostgroup_ids := hostgroup_ids
          weekday :=
            if p.period == some "weekly" && truthyS p.weekday then p.weekday else none
          day_of_month :=
            if p.period == some "monthly" && truthyI p.day_of_month then p.day_of_month
            else none
          cron_line :=
            if p.period == some "custom" && truthyS p.cron_line then p.cron_line
            else none }

/-- Ascending sort of an id list, as Python sorted(). -/
def sortNat (l : List Nat) : List Nat :=
  List.insertionSort (fun a b => a ≤ b) l

/-- _needs_update: the checks list built field by field, the schedule check
selected by the desired period, the three association comparisons on sorted
unwrapped ids, and the final any(checks). -/
def needs_update (existing : RemotePolicy) (desired : Policy) : Bool :=
  let checks : List Bool := [
    !(existing.description.getD "" == desired.description),
    !(existing.scap_content_id == some desired.scap_content_id),
    !(existing.scap_content_profile_id == some desired.scap_content_profile_id),
    !(existing.period == desired.period),
    !(existing.deploy_by == desired.deploy_by)]
  let checks := checks ++
    (if desired.period == some "weekly" then [!(existing.weekday == desired.weekday)]
     else if desired.period == some "monthly" then
       [!(existing.day_of_month == desired.day_of_month)]
     else if desired.period == some "custom" then
       [!(existing.cron_line == desired.cron_line)]
     else [])
  let existing_org_ids := sortNat (existing.organizations.map (fun o => o.id))
  let existing_loc_ids := sortNat (existing.locations.map (fun o => o.id))
  let existing_hg_ids := sortNat (existing.hostgroups.map (fun o => o.id))
  let checks := checks ++ [
    !(existing_org_ids == sortNat desired.organization_ids),
    !(existing_loc_ids == sortNat desired.location_ids),
    !(existing_hg_ids == sortNat desired.hostgroup_ids)]
  checks.any id

/-- The Diff Engine contract in the words of the spec (section 4.4 and claim
C6): true exactly when description, scap_content_id, scap_content_profile_id,
period, deploy_by, the single schedule field selected by the desired period,
or one of the three association id collections differs — the associations
compared with order never mattering and membership matching with no extra and
no missing element, which for id lists is permutation equivalence. -/
def spec_needs_update (existing : RemotePolicy) (desired : Policy) : Prop :=
  existing.description.getD "" ≠ desired.description ∨
  existing.scap_content_id ≠ some desired.scap_content_id ∨
  existing.scap_content_profile_id ≠ some desired.scap_content_profile_id ∨
  existing.period ≠ desired.period ∨
  existing.deploy_by ≠ desired.deploy_by ∨
  (desired.period = some "weekly" ∧ existing.weekday ≠ desired.weekday) ∨
  (desired.period = some "monthly" ∧ existing.day_of_month ≠ desired.day_of_month) ∨
  (desired.period = some "custom" ∧ existing.cron_line ≠ desired.cron_line) ∨
  ¬ List.Perm (existing.organizations.map (fun o => o.id)) desired.organization_ids ∨
  ¬ List.Perm (existing.locations.map (fun o => o.id)) desired.location_ids ∨
  ¬ List.Perm (existing.hostgroups.map (fun o => o.id)) desired.hostgroup_ids

/-- Modelled from the spec: how the server stores a created or updated policy
(spec section 6) — the writable payload fields become the remote
representation, the association id lists wrapped back into nested objects. -/
def storePolicy (pid : Nat) (pol : Policy) : RemotePolicy :=
  { id := pid
    name := pol.name
    description := some pol.description
    scap_content_id := some pol.scap_content_id
    scap_content_profile_id := some pol.scap_content_profile_id
    period := pol.period
    deploy_by := pol.deploy_by
    weekday := pol.weekday
    day_of_month := pol.day_of_month
    cron_line := pol.cron_line
    organizations := pol.organization_ids.map AssocObj.mk
    locations := pol.location_ids.map AssocObj.mk
    hostgroups := pol.hostgroup_ids.map AssocObj.mk }

/-- Modelled from the spec: the id the server assigns to a newly created
policy (fresh, larger than every existing id). -/
def freshId (server : ServerState) : Nat :=
  (server.policies.map (fun q => q.id)).foldr max 0 + 1

/-- SatelliteCompliancePolicyModule.run (lines 343-381), composed with the
behaviour of a reachable, well-behaved server per spec section 6: every
listing GET answers 200 with the first page, DELETE answers 200, POST 201,
PUT 200.  check_mode is the dry-run flag.  mutations records every POST, PUT
or DELETE issued, in order; server is the final server state. -/
def run (p : Params) (check_mode : Bool) (server : ServerState) : RunResult :=
  let existing := find_policy server p.name
  if p.state == "absent" then
    match existing with
    | none => ⟨.ok ⟨false, []⟩, server, []⟩
    | some e =>
      if check_mode then ⟨.ok ⟨true, []⟩, server, []⟩
      else
        ⟨.ok ⟨true, []⟩,
         { server with policies := server.policies.filter (fun q => !(q.id == e.id)) },
         [.delete ("/api/v2/compliance/policies/" ++ toString e.id)]⟩
  else
    match build_policy_payload p server with
    | .error msg => ⟨.error msg, server, []⟩
    | .ok pol =>
      match existing with
      | none =>
        if check_mode then ⟨.ok ⟨true, [.payload pol]⟩, server, []⟩
        else
          let created := storePolicy (freshId server) pol
          ⟨.ok ⟨true, [.remote created]⟩,
           { server with policies := server.policies ++ [created] },
           [.post "/api/v2/compliance/policies" pol]⟩
      | some e =>
        if needs_update e pol == false then ⟨.ok ⟨false, [.remote e]⟩, server, []⟩
        else if check_mode then ⟨.ok ⟨true, [.payload pol]⟩, server, []⟩
        else
          let updated := storePolicy e.id pol
          ⟨.ok ⟨true, [.remote updated]⟩,
           { server with policies :=
              server.policies.map (fun q => if q.id == e.id then updated else q) },
           [.put ("/api/v2/compliance/policies/" ++ toString e.id) pol]⟩

/-- Whether an Except carries a success. -/
def exceptOk : Except ε α → Bool
  | .ok _ => true
  | .error _ => false

/-- _api_request (lines 212-237) at the transport boundary, generic in the
parsed JSON type: status is info[status], body the raw response body, and
parse stands for json.loads with none modelling a raised ValueError or
TypeError; emptyObj is the empty dictionary.  The connection-failed sentinel
status -1 is fatal; every other status yields a parsed result, an empty or
unparseable body collapsing to the empty dictionary. -/
def api_request {α : Type} (emptyObj : α) (status : Int) (url : String)
    (errmsg : String) (body : String) (parse : String → Option α) :
    Except String (Int × α) :=
  if status == -1 then
    .error ("Connection to " ++ url ++ " failed: " ++ errmsg)
  else
    let result :=
      if body == "" then emptyObj
      else
        match parse body with
        | some d => d
        | none => emptyObj
    .ok (status, result)

/-- A well-stocked demo server: one SCAP content, one profile inside it, one
organization, one location, one hostgroup, no policies yet. -/
def demoServer : ServerState :=
  { scap_contents := [⟨1, "C1"⟩]
    scap_content_profiles := [⟨2, some "prof-x", some "C1"⟩]
    organizations := [⟨3, "Org1", "Org1"⟩]
    locations := [⟨4, "Loc1", "Loc1"⟩]
    hostgroups := [⟨5, "hg", "hg-base/hg-rhel-9"⟩]
    policies := [] }

/-- A validated desired state: weekly policy P1, state present. -/
def demoParams : Params :=
  { name := "P1", description := "", scap_content := some "C1"
    scap_content_profile := some "prof-x", deploy_by := some "ansible"
    period := some "weekly", weekday := some "monday", day_of_month := none
    cron_line := none, organizations := some ["Org1"], locations := some ["Loc1"]
    hostgroups := [], state := "present" }

/-- demoParams with period monthly and day_of_month 0: the bundle still
passes every validation rule (required_if only requires presence and the int
type carries no range check), but 0 is falsy in Python. -/
def monthlyZeroParams : Params :=
  { demoParams with period := some "monthly", weekday := none, day_of_month := some 0 }

/-- The remote representation of exactly the policy demoParams asks for. -/
def convergedPolicy : RemotePolicy :=
  { id := 10, name := "P1", description := some "", scap_content_id := some 1
    scap_content_profile_id := some 2, period := some "weekly"
    deploy_by := some "ansible", weekday := some "monday", day_of_month := none
    cron_line := none, organizations := [⟨3⟩], locations := [⟨4⟩], hostgroups := [] }

/-- demoServer already holding convergedPolicy. -/
def convergedServer : ServerState := { demoServer with policies := [convergedPolicy] }

/-- demoServer with no organizations at all, so resolving Org1 fails. -/
def noOrgServer : ServerState := { demoServer with organizations := [] }

/-- The desired state absent for the never-created policy P1. -/
def absentParams : Params := { demoParams with state := "absent" }

/-- An organizations collection of 1001 items whose 1001st item is the only
one named target: one more element than a single per_page=1000 page can
carry. -/
def bigCollection : List ApiItem :=
  List.replicate 1000 ⟨0, "filler", ""⟩ ++ [⟨7, "target", ""⟩]

/-- Two id lists have equal ascending sorts exactly when they are
permutations of one another. -/
theorem sortNat_eq_iff_perm (a b : List Nat) :
    sortNat a = sortNat b ↔ List.Perm a b := by
  constructor
  · intro h
    unfold sortNat at h
    have ha := List.perm_insertionSort (fun a b : Nat => a ≤ b) a
    have hb := List.perm_insertionSort (fun a b : Nat => a ≤ b) b
    exact ha.symm.trans (h ▸ hb)
  · intro h
    have hsa := List.sorted_insertionSort (fun a b : Nat => a ≤ b) a
    have hsb := List.sorted_insertionSort (fun a b : Nat => a ≤ b) b
    have hperm : List.Perm (sortNat a) (sortNat b) :=
      (List.perm_insertionSort _ a).trans (h.trans (List.perm_insertionSort _ b).symm)
    exact List.eq_of_perm_of_sorted hperm hsa hsb

/-- The diff engine never asks for an update of a policy against the very
payload the server stored for it. -/
theorem needs_update_store (pid : Nat) (pol : Policy) :
    needs_update (storePolicy pid pol) pol = false := by
  simp only [needs_update, storePolicy, List.map_map, Function.comp_def]
  simp
  by_cases h2 : pol.period = some "monthly" <;>
    by_cases h3 : pol.period = some "custom" <;>
    simp [h2, h3]

/-- The payload builder never reads the policies list, so replacing it on
the server leaves the built payload unchanged. -/
theorem build_ignores_policies (p : Params) (s : ServerState)
    (x : List RemotePolicy) :
    build_policy_payload p { s with policies := x } = build_policy_payload p s :=
  rfl

/-- The shape of a successfully built payload: the name is the desired name
and each schedule key is present exactly when the period selects it and its
parameter is truthy. -/
theorem build_payload_shape (p : Params) (s : ServerState) (pol : Policy)
    (h : build_policy_payload p s = .ok pol) :
    pol.name = p.name ∧
    pol.weekday
      = (if p.period == some "weekly" && truthyS p.weekday then p.weekday else none) ∧
    pol.day_of_month
      = (if p.period == some "monthly" && truthyI p.day_of_month then p.day_of_month
         else none) ∧
    pol.cron_line
      = (if p.period == some "custom" && truthyS p.cron_line then p.cron_line
         else none) := by
  unfold build_policy_payload at h
  split at h
  · simp at h
  split at h
  · simp at h
  split at h
  · simp at h
  split at h
  · simp at h
  split at h
  · simp at h
  injection h with h
  subst h
  exact ⟨rfl, rfl, rfl, rfl⟩

/-- A listing of at most one page is fetched whole. -/
theorem get_all_eq_self {α : Type} (l : List α) (h : l.length ≤ perPage) :
    get_all l = l :=
  List.take_of_length_le h

/-- After the DELETE issued for the located policy, a server whose policy
names were unique no longer holds any policy with the requested name. -/
theorem find_after_delete (s : ServerState) (nm : String) (e : RemotePolicy)
    (hnodup : (s.policies.map (fun q => q.name)).Nodup)
    (hfind : find_policy s nm = some e) :
    find_policy { s with policies := s.policies.filter (fun q => !(q.id == e.id)) } nm
      = none := by
  unfold find_policy get_all at hfind ⊢
  have hemem : e ∈ s.policies :=
    List.mem_of_mem_take (List.mem_of_find?_eq_some hfind)
  have hename : e.name = nm := by
    have := List.find?_some hfind
    simpa using this
  rw [List.find?_eq_none]
  intro q hq hqname
  have hq1 : q ∈ s.policies.filter (fun q => !(q.id == e.id)) := List.mem_of_mem_take hq
  have hq2 := List.mem_filter.mp hq1
  have hqname' : q.name = nm := by simpa using hqname
  have hqe : q = e :=
    List.inj_on_of_nodup_map hnodup hq2.1 hemem (by rw [hqname', hename])
  subst hqe
  simp at hq2

/-- After a POST appends the created policy to a server that previously had
no policy of the requested name (and had room inside the single fetched
page), the locator finds exactly the created policy. -/
theorem find_after_create (s : ServerState) (nm : String) (c : RemotePolicy)
    (hlen : s.policies.length < perPage)
    (hnone : find_policy s nm = none) (hname : c.name = nm) :
    find_policy { s with policies := s.policies ++ [c] } nm = some c := by
  unfold find_policy get_all at hnone ⊢
  rw [List.take_of_length_le (le_of_lt hlen)] at hnone
  rw [List.take_of_length_le (by simp; omega)]
  rw [List.find?_append, hnone]
  simp [hname]

/-- Replacing, by id, the first policy carrying the requested name with an
updated policy of the same name makes the replacement the first match. -/
theorem find?_map_update (l : List RemotePolicy) (e upd : RemotePolicy) (nm : String)
    (hfind : l.find? (fun q => q.name == nm) = some e)
    (hname : upd.name = nm) :
    (l.map (fun q => if q.id == e.id then upd else q)).find? (fun q => q.name == nm)
      = some upd := by
  induction l with
  | nil => simp at hfind
  | cons q rest ih =>
    simp only [List.map_cons]
    by_cases hq : (q.name == nm) = true
    · have hstep : List.find? (fun q : RemotePolicy => q.name == nm) (q :: rest) = some q :=
        List.find?_cons_of_pos _ hq
      rw [hstep] at hfind
      injection hfind with hfind
      subst hfind
      rw [if_pos (by simp : (q.id == q.id) = true)]
      exact List.find?_cons_of_pos _ (by simp [hname])
    · have hstep : List.find? (fun q : RemotePolicy => q.name == nm) (q :: rest)
          = List.find? (fun q => q.name == nm) rest :=
        List.find?_cons_of_neg _ hq
      rw [hstep] at hfind
      by_cases hid : (q.id == e.id) = true
      · rw [if_pos hid]
        exact List.find?_cons_of_pos _ (by simp [hname])
      · rw [if_neg hid]
        have hstep2 : List.find? (fun q : RemotePolicy => q.name == nm)
            (q :: List.map (fun q => if q.id == e.id then upd else q) rest)
            = List.find? (fun q => q.name == nm)
                (List.map (fun q => if q.id == e.id then upd else q) rest) :=
          List.find?_cons_of_neg _ hq
        rw [hstep2]
        exact ih hfind

/-- The locator finds the PUT result after an update of the located
policy. -/
theorem find_after_update (s : ServerState) (nm : String) (e upd : RemotePolicy)
    (hlen : s.policies.length < perPage)
    (hfind : find_policy s nm = some e) (hname : upd.name = nm) :
    find_policy
      { s with policies := s.policies.map (fun q => if q.id == e.id then upd else q) } nm
      = some upd := by
  unfold find_policy get_all at hfind ⊢
  rw [List.take_of_length_le (le_of_lt hlen)] at hfind
  rw [List.take_of_length_le (by simp; omega)]
  exact find?_map_update _ e upd nm hfind hname

/-- The per-name loop of the resolver stops at the first name that is
missing from the dictionary and reports exactly that name. -/
theorem resolveNames_first_missing (results : List ApiItem) (endpoint key : String)
    (pre : List String) (n : String) (post : List String)
    (hpre : ∀ m ∈ pre, (lookupKey results key m).isSome = true)
    (hn : lookupKey results key n = none) :
    resolveNames results endpoint key (pre ++ n :: post) =
      .error ("Could not find " ++ key ++ " \u0027" ++ n ++ "\u0027 at " ++ endpoint) := by
  induction pre with
  | nil => simp [resolveNames, hn]
  | cons m rest ih =>
    have hm := hpre m (by simp)
    obtain ⟨i, hi⟩ := Option.isSome_iff_exists.mp hm
    have htail := ih (fun x hx => hpre x (by simp [hx]))
    rw [List.cons_append]
    simp only [resolveNames]
    rw [hi, htail]
    rfl

/-- In the dictionary built from a listing in which the last item carrying
the requested key stands at the shown position, the lookup returns exactly
the id of that item. -/
theorem lookupKey_last (r1 r2 : List ApiItem) (it : ApiItem) (key nm : String)
    (hit : getKey key it = nm)
    (h2 : ∀ x ∈ r2, getKey key x ≠ nm) :
    lookupKey (r1 ++ it :: r2) key nm = some it.id := by
  unfold lookupKey
  rw [List.reverse_append, List.reverse_cons, List.find?_append]
  have hnone : r2.reverse.find? (fun x => getKey key x == nm) = none := by
    rw [List.find?_eq_none]
    intro x hx
    simp [h2 x (List.mem_reverse.mp hx)]
  have hr2 : (r2.reverse ++ [it]).find? (fun x => getKey key x == nm) = some it := by
    rw [List.find?_append, hnone]
    simp [hit]
  rw [hr2]
  simp

/-- Whenever the resolver loop succeeds, every requested name equal to nm
yields, at its position of the output, the id the dictionary holds for
nm. -/
theorem resolveNames_zip (results : List ApiItem) (endpoint key nm : String) (v : Nat)
    (hl : lookupKey results key nm = some v) :
    ∀ names ids, resolveNames results endpoint key names = .ok ids →
      ∀ pr ∈ names.zip ids, pr.1 = nm → pr.2 = v := by
  intro names
  induction names with
  | nil =>
    intro ids h pr hpr
    simp only [resolveNames] at h
    injection h with h
    subst h
    simp at hpr
  | cons n rest ih =>
    intro ids h pr hpr hnm
    simp only [resolveNames] at h
    cases hlk : lookupKey results key n with
    | none => rw [hlk] at h; simp at h
    | some i =>
      rw [hlk] at h
      cases hrest : resolveNames results endpoint key rest with
      | error m => rw [hrest] at h; simp [Except.map] at h
      | ok restIds =>
        rw [hrest] at h
        simp only [Except.map] at h
        injection h with h
        subst h
        rcases List.mem_cons.mp (by simpa using hpr) with h1 | h1
        · have hn' : n = nm := hnm ▸ (by rw [h1])
          rw [h1]
          have : lookupKey results key nm = some i := hn' ▸ hlk
          have hiv : i = v := by
            rw [this] at hl
            injection hl
          simp [hiv]
        · exact ih restIds hrest pr h1 hnm

/-- Claim C1: for every desired state and every remote server state, the
dry-run (check mode) invocation issues no POST, PUT or DELETE on any branch
and leaves the server untouched, and the changed flag it reports equals the
changed flag of a non-dry-run invocation from the same initial server
state (an invocation that fails reports no changed flag in either mode, with
the same message). -/
theorem c1_dry_run_no_mutation_same_changed (p : Params) (s : ServerState) :
    (run p true s).mutations = [] ∧ (run p true s).server = s ∧
    (run p true s).report.map (fun r => r.changed)
      = (run p false s).report.map (fun r => r.changed) := by
  unfold run
  rcases hfind : find_policy s p.name with _ | e <;>
    by_cases hst : (p.state == "absent") = true <;>
    rcases hbuild : build_policy_payload p s with msg | pol <;>
    simp [hfind, hst, hbuild, Except.map] <;>
    split <;> simp [Except.map]

/-- Claim C5: with state present, a failure inside reference resolution (the
payload builder) aborts the whole invocation with that failure message,
leaves the server untouched, and issues zero POST, PUT or DELETE requests,
in dry-run and in apply mode alike. -/
theorem c5_resolution_failure_no_mutation (p : Params) (cm : Bool) (s : ServerState)
    (hp : p.state = "present") (msg : String)
    (hb : build_policy_payload p s = .error msg) :
    run p cm s = ⟨.error msg, s, []⟩ := by
  unfold run
  have hst : (p.state == "absent") = false := by simp [hp]
  rw [hst]
  simp [hb]

/-- Claim C7: with state absent and no remote policy of the requested name
on the server, the reconciler issues no mutating request, leaves the server
untouched, and exits with changed false and an empty compliance_policies
list, in dry-run and in apply mode alike. -/
theorem c7_absent_missing_noop (p : Params) (cm : Bool) (s : ServerState)
    (hst : p.state = "absent")
    (hnone : ∀ q ∈ s.policies, q.name ≠ p.name) :
    run p cm s = ⟨.ok ⟨false, []⟩, s, []⟩ := by
  have hfind : find_policy s p.name = none := by
    unfold find_policy get_all
    rw [List.find?_eq_none]
    intro q hq
    simp [hnone q (List.mem_of_mem_take hq)]
  unfold run
  rw [hfind]
  simp [hst]

/-- Claim C10: for every transport response whose status is not the
connection-failed sentinel -1, the request helper totally produces a parsed
result carrying that status; an empty body, or a body on which the JSON
parse raises, collapses to the empty dictionary instead of propagating a
parse error. -/
theorem c10_api_request_total {α : Type} (emptyObj : α) (status : Int)
    (url errmsg body : String) (parse : String → Option α)
    (h : status ≠ -1) :
    api_request emptyObj status url errmsg body parse
      = .ok (status, if body == "" then emptyObj else (parse body).getD emptyObj) := by
  unfold api_request
  rw [if_neg (by simp [h])]
  by_cases hbody : (body == "") = true
  · simp [hbody]
  · simp only [hbody]
    cases parse body <;> simp

/-- Claim C4, the failing input: the organizations collection bigCollection
has 1001 elements and exactly one of them is named target, yet resolving
target fails, because _get_all issues a single GET with per_page=1000 and
never requests a further page, so the 1001st element is invisible to the
name-to-id mapping. -/
theorem c4_single_page_listing_misses_item :
    bigCollection.length = 1001 ∧
    (bigCollection.filter (fun it => it.name == "target")).length = 1 ∧
    resolve_ids bigCollection "/api/v2/organizations" ["target"] "name" =
      .error ("Could not find " ++ "name" ++ " \u0027" ++ "target"
        ++ "\u0027 at " ++ "/api/v2/organizations") := by
  refine ⟨by decide, by decide, by rfl⟩

/-- Claim C3, counterexample: monthlyZeroParams has state present and passes
every validation rule (required_if only checks presence and the int type
carries no range check), yet the payload built for it contains NONE of the
three schedule keys: day_of_month = 0 is falsy in Python, so the builder
guard suppresses the key, and the claimed exactly-one-key property fails. -/
theorem c3_day_of_month_zero_counterexample :
    validParams monthlyZeroParams = true ∧
    monthlyZeroParams.state = "present" ∧
    (build_policy_payload monthlyZeroParams demoServer).map
      (fun pol => (pol.weekday, pol.day_of_month, pol.cron_line))
      = .ok (none, none, none) := by
  refine ⟨by decide, by decide, by rfl⟩

/-- Claim C3 amended: for every desired state with state present that passes
input validation and whose selected schedule value is Python-truthy (a
weekday from the choices list always is; day_of_month must not be 0, and
cron_line must not be the empty string — those falsy sentinel values pass
validation yet suppress the key, see the counterexample), the built payload
contains exactly the one schedule key selected by period, carrying the
desired value, and the other two keys are entirely absent (none), not merely
null. -/
theorem c3_schedule_key_exclusive (p : Params) (s : ServerState) (pol : Policy)
    (hv : validParams p = true) (hp : p.state = "present")
    (hm : p.period = some "monthly" → truthyI p.day_of_month = true)
    (hc : p.period = some "custom" → truthyS p.cron_line = true)
    (hb : build_policy_payload p s = .ok pol) :
    (p.period = some "weekly" →
      pol.weekday = p.weekday ∧ pol.weekday.isSome = true
        ∧ pol.day_of_month = none ∧ pol.cron_line = none) ∧
    (p.period = some "monthly" →
      pol.day_of_month = p.day_of_month ∧ pol.day_of_month.isSome = true
        ∧ pol.weekday = none ∧ pol.cron_line = none) ∧
    (p.period = some "custom" →
      pol.cron_line = p.cron_line ∧ pol.cron_line.isSome = true
        ∧ pol.weekday = none ∧ pol.day_of_month = none) := by
  obtain ⟨hname, hw, hd, hcr⟩ := build_payload_shape p s pol hb
  have hval := hv
  unfold validParams at hval
  simp only [Bool.and_eq_true] at hval
  obtain ⟨⟨⟨⟨⟨⟨⟨hstate, hdep⟩, hperiod⟩, hwd⟩, hreq⟩, hreqw⟩, hreqm⟩, hreqc⟩ := hval
  refine ⟨?_, ?_, ?_⟩
  · intro hper
    have hsome : p.weekday.isSome = true := by
      simp [hper] at hreqw
      exact hreqw
    obtain ⟨d, hdval⟩ := Option.isSome_iff_exists.mp hsome
    have htruthy : truthyS p.weekday = true := by
      rw [hdval]
      unfold optChoiceOk at hwd
      rw [hdval] at hwd
      simp at hwd
      rcases hwd with rfl | rfl | rfl | rfl | rfl | rfl | rfl <;> decide
    rw [hw, hd, hcr]
    simp [hper, htruthy]
    exact hsome
  · intro hper
    have htruthy := hm hper
    rw [hw, hd, hcr]
    simp [hper, htruthy]
    exact Option.isSome_iff_exists.mpr
      (by cases hdm : p.day_of_month with
        | none => rw [hdm] at htruthy; simp [truthyI] at htruthy
        | some n => exact ⟨n, rfl⟩)
  · intro hper
    have htruthy := hc hper
    rw [hw, hd, hcr]
    simp [hper, htruthy]
    exact Option.isSome_iff_exists.mpr
      (by cases hcl : p.cron_line with
        | none => rw [hcl] at htruthy; simp [truthyS] at htruthy
        | some c => exact ⟨c, rfl⟩)

/-- Claim C3, witness: the weekly demo bundle is validated and present, its
schedule values are truthy, its payload builds, and the theorem instance
shows the weekday key alone is present. -/
theorem c3_schedule_key_exclusive_witness :
    (demoParams.period = some "weekly" →
      (⟨"P1", "", 1, 2, some "weekly", some "ansible", [3], [4], [],
        some "monday", none, none⟩ : Policy).weekday = demoParams.weekday ∧
      (⟨"P1", "", 1, 2, some "weekly", some "ansible", [3], [4], [],
        some "monday", none, none⟩ : Policy).weekday.isSome = true ∧
      (⟨"P1", "", 1, 2, some "weekly", some "ansible", [3], [4], [],
        some "monday", none, none⟩ : Policy).day_of_month = none ∧
      (⟨"P1", "", 1, 2, some "weekly", some "ansible", [3], [4], [],
        some "monday", none, none⟩ : Policy).cron_line = none) ∧
    (demoParams.period = some "monthly" →
      (⟨"P1", "", 1, 2, some "weekly", some "ansible", [3], [4], [],
        some "monday", none, none⟩ : Policy).day_of_month = demoParams.day_of_month ∧
      (⟨"P1", "", 1, 2, some "weekly", some "ansible", [3], [4], [],
        some "monday", none, none⟩ : Policy).day_of_month.isSome = true ∧
      (⟨"P1", "", 1, 2, some "weekly", some "ansible", [3], [4], [],
        some "monday", none, none⟩ : Policy).weekday = none ∧
      (⟨"P1", "", 1, 2, some "weekly", some "ansible", [3], [4], [],
        some "monday", none, none⟩ : Policy).cron_line = none) ∧
    (demoParams.period = some "custom" →
      (⟨"P1", "", 1, 2, some "weekly", some "ansible", [3], [4], [],
        some "monday", none, none⟩ : Policy).cron_line = demoParams.cron_line ∧
      (⟨"P1", "", 1, 2, some "weekly", some "ansible", [3], [4], [],
        some "monday", none, none⟩ : Policy).cron_line.isSome = true ∧
      (⟨"P1", "", 1, 2, some "weekly", some "ansible", [3], [4], [],
        some "monday", none, none⟩ : Policy).weekday = none ∧
      (⟨"P1", "", 1, 2, some "weekly", some "ansible", [3], [4], [],
        some "monday", none, none⟩ : Policy).day_of_month = none) :=
  c3_schedule_key_exclusive demoParams demoServer
    ⟨"P1", "", 1, 2, some "weekly", some "ansible", [3], [4], [],
      some "monday", none, none⟩
    (by decide) (by decide) (by decide) (by decide) (by rfl)

/-- Claim C8: for every requested sequence in which every name before n
resolves and n is missing from the fetched collection dictionary, the
resolver fails on exactly that first unmatched name with no partial result,
and the failure message contains both the offending value and the collection
endpoint searched (exhibited as substring decompositions). -/
theorem c8_resolver_fails_on_first_unmatched
    (collection : List ApiItem) (endpoint key : String)
    (pre : List String) (n : String) (post : List String)
    (hpre : ∀ m ∈ pre, (lookupKey (get_all collection) key m).isSome = true)
    (hn : lookupKey (get_all collection) key n = none) :
    resolve_ids collection endpoint (pre ++ n :: post) key =
      .error ("Could not find " ++ key ++ " \u0027" ++ n ++ "\u0027 at " ++ endpoint) ∧
    (∃ s1 s2 : String,
      "Could not find " ++ key ++ " \u0027" ++ n ++ "\u0027 at " ++ endpoint
        = s1 ++ (n ++ s2)) ∧
    (∃ s1 s2 : String,
      "Could not find " ++ key ++ " \u0027" ++ n ++ "\u0027 at " ++ endpoint
        = s1 ++ (endpoint ++ s2)) := by
  refine ⟨resolveNames_first_missing (get_all collection) endpoint key pre n post hpre hn,
    ⟨"Could not find " ++ key ++ " \u0027", "\u0027 at " ++ endpoint, ?_⟩,
    ⟨"Could not find " ++ key ++ " \u0027" ++ n ++ "\u0027 at ", "", ?_⟩⟩
  · simp [String.append_assoc]
  · simp [String.append_assoc]

/-- Claim C8, witness: with a one-item collection named a, the request
sequence a then missing fails on missing, and the message contains the value
and the endpoint. -/
theorem c8_resolver_fails_on_first_unmatched_witness :
    resolve_ids [⟨1, "a", "a"⟩] "/api/v2/organizations" (["a"] ++ "missing" :: []) "name" =
      .error ("Could not find " ++ "name" ++ " \u0027" ++ "missing"
        ++ "\u0027 at " ++ "/api/v2/organizations") ∧
    (∃ s1 s2 : String,
      "Could not find " ++ "name" ++ " \u0027" ++ "missing"
        ++ "\u0027 at " ++ "/api/v2/organizations" = s1 ++ ("missing" ++ s2)) ∧
    (∃ s1 s2 : String,
      "Could not find " ++ "name" ++ " \u0027" ++ "missing"
        ++ "\u0027 at " ++ "/api/v2/organizations"
        = s1 ++ ("/api/v2/organizations" ++ s2)) :=
  c8_resolver_fails_on_first_unmatched [⟨1, "a", "a"⟩] "/api/v2/organizations" "name"
    ["a"] "missing" [] (by decide) (by decide)

/-- Claim C9: when the collection handed to the resolver contains two or
more items sharing the display key nm (one inside the prefix r1 and the last
one at the shown position, no later item carrying nm), the dictionary
deterministically maps nm to the id of that LAST item in listing order, and
every successfully resolved request sequence receives that id at each
position requesting nm. -/
theorem c9_duplicate_key_last_one_wins
    (r1 r2 : List ApiItem) (dup it : ApiItem) (key nm endpoint : String)
    (hdup : dup ∈ r1) (hdupkey : getKey key dup = nm)
    (hit : getKey key it = nm)
    (h2 : ∀ x ∈ r2, getKey key x ≠ nm)
    (names : List String) (ids : List Nat)
    (hres : resolveNames (r1 ++ it :: r2) endpoint key names = .ok ids) :
    lookupKey (r1 ++ it :: r2) key nm = some it.id ∧
    ∀ pr ∈ names.zip ids, pr.1 = nm → pr.2 = it.id := by
  have hl := lookupKey_last r1 r2 it key nm hit h2
  exact ⟨hl, resolveNames_zip (r1 ++ it :: r2) endpoint key nm it.id hl names ids hres⟩

/-- Claim C9, witness: two items both named dup, ids 1 and 2 in listing
order; the dictionary maps dup to 2 and the resolved sequence receives 2. -/
theorem c9_duplicate_key_last_one_wins_witness :
    lookupKey ([⟨1, "dup", "dup"⟩] ++ ⟨2, "dup", "dup"⟩ :: []) "name" "dup"
      = some (ApiItem.mk 2 "dup" "dup").id ∧
    ∀ pr ∈ (["dup"].zip [2]), pr.1 = "dup" → pr.2 = (ApiItem.mk 2 "dup" "dup").id :=
  c9_duplicate_key_last_one_wins [⟨1, "dup", "dup"⟩] [] ⟨1, "dup", "dup"⟩
    ⟨2, "dup", "dup"⟩ "name" "dup" "/api/v2/organizations"
    (by decide) (by decide) (by decide) (by decide) ["dup"] [2] (by rfl)

/-- Claim C6: the diff engine returns true exactly when at least one of
description, scap_content_id, scap_content_profile_id, period, deploy_by,
the single schedule field selected by the desired period, or one of the
three association id collections differs, the associations compared with
order never mattering and membership matching exactly (permutation
equivalence of the unwrapped id lists, which is what equality of both sides
sorted means). -/
theorem c6_needs_update_iff_spec (existing : RemotePolicy) (desired : Policy) :
    needs_update existing desired = true ↔ spec_needs_update existing desired := by
  by_cases h1 : desired.period = some "weekly"
  · simp [needs_update, spec_needs_update, h1, sortNat_eq_iff_perm]
  · by_cases h2 : desired.period = some "monthly"
    · simp [needs_update, spec_needs_update, h1, h2, sortNat_eq_iff_perm]
    · by_cases h3 : desired.period = some "custom"
      · simp [needs_update, spec_needs_update, h1, h2, h3, sortNat_eq_iff_perm]
      · simp [needs_update, spec_needs_update, h1, h2, h3, sortNat_eq_iff_perm]

/-- Claim C2, counterexample: against convergedServer, which already holds
exactly the policy demoParams describes, the FIRST full (non-dry-run)
reconciliation already reports changed = false and issues no mutation — the
claimed changed = true on the first run does not hold for every desired
state and server. -/
theorem c2_first_run_can_report_unchanged :
    (run demoParams false convergedServer).report.map (fun r => r.changed)
      = .ok false ∧
    (run demoParams false convergedServer).mutations = [] := by
  exact ⟨by rfl, by rfl⟩

/-- Claim C2 amended: under no external interference (the server state seen
by the second run is exactly the one the first run left), with unique policy
names and a policies collection small enough to fit the single fetched page,
a successful first run is always followed by a second run reporting
changed = false; the first run reports changed = true only when the server
did not already match the desired state (it reports changed = false when the
desired policy already matches, or when state is absent and no such policy
exists, as the counterexample shows). -/
theorem c2_second_run_reports_no_change (p : Params) (s : ServerState)
    (hnodup : (s.policies.map (fun q => q.name)).Nodup)
    (hlen : s.policies.length < perPage)
    (hok : exceptOk (run p false s).report = true) :
    (run p false (run p false s).server).report.map (fun r => r.changed)
      = .ok false := by
  by_cases hst : (p.state == "absent") = true
  · rcases hfind : find_policy s p.name with _ | e
    · have h1 : run p false s = ⟨.ok ⟨false, []⟩, s, []⟩ := by
        unfold run
        rw [hfind]
        simp [hst]
      rw [h1]
      unfold run
      rw [hfind]
      simp [hst, Except.map]
    · have h1 : run p false s =
          ⟨.ok ⟨true, []⟩,
           { s with policies := s.policies.filter (fun q => !(q.id == e.id)) },
           [.delete ("/api/v2/compliance/policies/" ++ toString e.id)]⟩ := by
        unfold run
        rw [hfind]
        simp [hst]
      rw [h1]
      have h2 := find_after_delete s p.name e hnodup hfind
      unfold run
      rw [h2]
      simp [hst, Except.map]
  · rcases hbuild : build_policy_payload p s with msg | pol
    · exfalso
      have h1 : run p false s = ⟨.error msg, s, []⟩ := by
        unfold run
        simp [hst, hbuild]
      rw [h1] at hok
      simp [exceptOk] at hok
    · rcases hfind : find_policy s p.name with _ | e
      · -- create path
        have h1 : run p false s =
            ⟨.ok ⟨true, [.remote (storePolicy (freshId s) pol)]⟩,
             { s with policies := s.policies ++ [storePolicy (freshId s) pol] },
             [.post "/api/v2/compliance/policies" pol]⟩ := by
          unfold run
          rw [hfind]
          simp [hst, hbuild]
        rw [h1]
        have hname : (storePolicy (freshId s) pol).name = p.name := by
          have := (build_payload_shape p s pol hbuild).1
          simp [storePolicy, this]
        have h2 := find_after_create s p.name (storePolicy (freshId s) pol) hlen hfind hname
        have h3 : build_policy_payload p
            { s with policies := s.policies ++ [storePolicy (freshId s) pol] }
            = .ok pol := by
          rw [build_ignores_policies]
          exact hbuild
        unfold run
        rw [h2]
        simp [hst, h3, needs_update_store, Except.map]
      · rcases hneed : needs_update e pol with _ | _
        · -- no-diff path: the second run repeats the first verbatim
          have h1 : run p false s = ⟨.ok ⟨false, [.remote e]⟩, s, []⟩ := by
            unfold run
            rw [hfind]
            simp [hst, hbuild, hneed]
          rw [h1]
          unfold run
          rw [hfind]
          simp [hst, hbuild, hneed, Except.map]
        · -- update path
          have h1 : run p false s =
              ⟨.ok ⟨true, [.remote (storePolicy e.id pol)]⟩,
               { s with policies :=
                  s.policies.map (fun q => if q.id == e.id then storePolicy e.id pol else q) },
               [.put ("/api/v2/compliance/policies/" ++ toString e.id) pol]⟩ := by
            unfold run
            rw [hfind]
            simp [hst, hbuild, hneed]
          rw [h1]
          have hname : (storePolicy e.id pol).name = p.name := by
            have := (build_payload_shape p s pol hbuild).1
            simp [storePolicy, this]
          have h2 := find_after_update s p.name e (storePolicy e.id pol) hlen hfind hname
          have h3 : build_policy_payload p
              { s with policies :=
                 s.policies.map (fun q => if q.id == e.id then storePolicy e.id pol else q) }
              = .ok pol := by
            rw [build_ignores_policies]
            exact hbuild
          simp only [beq_iff_eq] at h2 h3
          unfold run
          simp [hst, h2, h3, needs_update_store, Except.map]

/-- Claim C2, witness: on the demo server (no policies yet, fewer than one
page, names unique) the first run with demoParams succeeds, and the second
run reports changed = false. -/
theorem c2_second_run_reports_no_change_witness :
    (run demoParams false (run demoParams false demoServer).server).report.map
      (fun r => r.changed) = .ok false :=
  c2_second_run_reports_no_change demoParams demoServer (by decide) (by decide) (by rfl)

/-- Claim C5, witness: on a server with no organizations, resolving the demo
bundle fails at Org1 and the whole invocation aborts with that message, zero
mutations issued and the server untouched. -/
theorem c5_resolution_failure_no_mutation_witness :
    run demoParams true noOrgServer =
      ⟨.error ("Could not find " ++ "name" ++ " \u0027" ++ "Org1"
        ++ "\u0027 at " ++ "/api/v2/organizations"), noOrgServer, []⟩ :=
  c5_resolution_failure_no_mutation demoParams true noOrgServer (by rfl)
    ("Could not find " ++ "name" ++ " \u0027" ++ "Org1"
      ++ "\u0027 at " ++ "/api/v2/organizations") (by rfl)

/-- Claim C7, witness: deleting the never-created policy P1 on the demo
server is a no-op with changed false and an empty entity list. -/
theorem c7_absent_missing_noop_witness :
    run absentParams false demoServer = ⟨.ok ⟨false, []⟩, demoServer, []⟩ :=
  c7_absent_missing_noop absentParams false demoServer (by rfl)
    (by intro q hq; simp [demoServer] at hq)

/-- Claim C10, witness: a 200 response with an empty body parses to the
empty dictionary without any error. -/
theorem c10_api_request_total_witness :
    api_request (0 : Nat) 200 "https://sat.example.com" "m" "" (fun _ => none)
      = .ok (200, if ("" == "") = true then (0 : Nat)
          else ((fun (_ : String) => (none : Option Nat)) "").getD 0) :=
  c10_api_request_total (0 : Nat) 200 "https://sat.example.com" "m" ""
    (fun _ => none) (by decide)
